import Mathlib

/-!
Verification of the Eduu front-end HTTP client wrapper (`src/unnamed/part_000`,
an axios instance with a request interceptor plus resource API helpers) and the
authentication-state provider (`src/frontend/src/contexts/AuthContext.js`).

The JavaScript source is shallowly embedded: `localStorage` is an association
list, JS truthiness on nullable strings is made explicit, the axios request
interceptor and the raw `fetch`-based download helpers are modelled as request
transformers / request builders, and the React auth provider is modelled as a
state type with one function per operation (checkAuth, login, register, logout,
updateUser), with each backend call's outcome passed in as a parameter.
-/

namespace Eduu

/-- Client-side storage (`localStorage`): an association list of key/value
strings.  `getItem` returns `none` where JS returns `null`. -/
abbrev LocalStorage := List (String × String)

/-- `localStorage.getItem(key)`: first value stored under `key`, else `none`. -/
def getItem : LocalStorage → String → Option String
  | [], _ => none
  | (k, v) :: rest, key => if k = key then some v else getItem rest key

/-- `localStorage.setItem(key, value)`: store `value` under `key`,
overwriting any previous binding. -/
def setItem (st : LocalStorage) (key value : String) : LocalStorage :=
  (key, value) :: st.filter (fun p => p.1 ≠ key)

/-- `localStorage.removeItem(key)`: delete any binding of `key`. -/
def removeItem (st : LocalStorage) (key : String) : LocalStorage :=
  st.filter (fun p => p.1 ≠ key)

/-- JS truthiness of a nullable string: `null` and `""` are falsy,
every other string is truthy.  This is the test `if (token)` performs. -/
def jsTruthy : Option String → Bool
  | none => false
  | some s => s ≠ ""

/-- An axios request config, as seen by the request interceptor:
a relative URL, a method, and a header map. -/
structure RequestConfig where
  url : String
  method : String
  headers : List (String × String)
deriving DecidableEq, Repr

/-- Look up a header value by exact key, mirroring JS property access on the
`headers` object. -/
def lookupHeader : List (String × String) → String → Option String
  | [], _ => none
  | (k, v) :: rest, key => if k = key then some v else lookupHeader rest key

/-- JS property assignment `headers[key] = value`: overwrite any previous
binding of `key`. -/
def setHeader (hs : List (String × String)) (key value : String) :
    List (String × String) :=
  (key, value) :: hs.filter (fun p => p.1 ≠ key)

/-- The request interceptor installed by `api.interceptors.request.use`:
read `localStorage.getItem('token')`; if it is truthy, set
`config.headers.Authorization = Bearer <token>`; otherwise return the config
unchanged. -/
def requestInterceptor (storage : LocalStorage) (config : RequestConfig) :
    RequestConfig :=
  match getItem storage "token" with
  | some token =>
      if token ≠ "" then
        { config with
            headers := setHeader config.headers "Authorization"
              ("Bearer " ++ token) }
      else config
  | none => config

/-- A concrete outbound HTTP request as it leaves the browser: absolute URL,
method, whether credentials (cookies) are included, and headers. -/
structure FetchRequest where
  url : String
  method : String
  credentialsInclude : Bool
  headers : List (String × String)
deriving DecidableEq, Repr

/-- `papersAPI.download(id)`: a raw `fetch` of
`${API_BASE_URL}/api/papers/${id}/download` with `method: 'GET'` and
`credentials: 'include'`; no headers are set on the request. -/
def papersDownloadRequest (baseURL id : String) : FetchRequest :=
  { url := baseURL ++ "/api/papers/" ++ id ++ "/download"
    method := "GET"
    credentialsInclude := true
    headers := [] }

/-- `notesAPI.download(id)`: raw `fetch` of
`${API_BASE_URL}/api/notes/${id}/download`, cookies included, no headers. -/
def notesDownloadRequest (baseURL id : String) : FetchRequest :=
  { url := baseURL ++ "/api/notes/" ++ id ++ "/download"
    method := "GET"
    credentialsInclude := true
    headers := [] }

/-- `syllabusAPI.download(id)`: raw `fetch` of
`${API_BASE_URL}/api/syllabus/${id}/download`, cookies included, no headers. -/
def syllabusDownloadRequest (baseURL id : String) : FetchRequest :=
  { url := baseURL ++ "/api/syllabus/" ++ id ++ "/download"
    method := "GET"
    credentialsInclude := true
    headers := [] }

/-- The ways the client issues an outbound request: through the wrapped axios
instance `api` (which runs the request interceptor), or through one of the
raw-`fetch` download helpers. -/
inductive OutboundRequest
  | viaApi (config : RequestConfig)
  | papersDownload (id : String)
  | notesDownload (id : String)
  | syllabusDownload (id : String)
deriving DecidableEq, Repr

/-- Build the concrete request that leaves the browser for each way of issuing
one.  Requests through `api` pass through the interceptor and carry cookies
(`withCredentials: true`); the download helpers build their `fetch` calls
directly and never consult the interceptor. -/
def issueRequest (baseURL : String) (storage : LocalStorage) :
    OutboundRequest → FetchRequest
  | .viaApi config =>
      let c := requestInterceptor storage config
      { url := baseURL ++ c.url
        method := c.method
        credentialsInclude := true
        headers := c.headers }
  | .papersDownload id => papersDownloadRequest baseURL id
  | .notesDownload id => notesDownloadRequest baseURL id
  | .syllabusDownload id => syllabusDownloadRequest baseURL id

/-- The `Authorization` header carried by an outgoing request, if any. -/
def authorizationHeader (r : FetchRequest) : Option String :=
  lookupHeader r.headers "Authorization"

/-! ### The auth state holder (`AuthContext.js`) -/

/-- A JS value, as far as the code inspects one: the auth provider tests
`user.is_admin === true`, a strict equality that only the boolean `true`
passes. -/
inductive JsVal
  | vBool (b : Bool)
  | vStr (s : String)
  | vNum (n : Int)
  | vNull
  | vUndefined
deriving DecidableEq, Repr

/-- Strict equality `v === true`. -/
def strictEqTrue : JsVal → Bool
  | .vBool true => true
  | _ => false

/-- A user object from a backend payload: `{ id, email, is_admin, ... }`.
`is_admin` is an arbitrary JS value, since the code guards it with `=== true`. -/
structure User where
  id : String
  email : String
  is_admin : JsVal
deriving DecidableEq, Repr

/-- The provider's in-memory state: the three `useState` hooks
`currentUser`, `loading`, `isAdmin`. -/
structure AuthState where
  currentUser : Option User
  loading : Bool
  isAdmin : Bool
deriving DecidableEq, Repr

/-- The initial hook values: `useState(null)`, `useState(true)`,
`useState(false)`. -/
def initState : AuthState :=
  { currentUser := none, loading := true, isAdmin := false }

/-- The cause of a failed backend call, which the provider never inspects. -/
inductive ApiError
  | network
  | status (code : Nat)
deriving DecidableEq, Repr

/-- The `/api/auth/login` success payload, destructured as
`{ access_token, user } = res.data`. -/
structure LoginResponse where
  access_token : String
  user : User
deriving DecidableEq, Repr

/-- The `/api/auth/register` success payload, destructured as
`{ user } = res.data`. -/
structure RegisterResponse where
  user : User
deriving DecidableEq, Repr

/-- The startup `checkAuth` effect: if no truthy token is stored, become
anonymous and stop loading; otherwise fetch the profile
(`profileAPI.get()`, outcome passed in as `profileResult`): on success store
the user and derive `isAdmin` via `user.is_admin === true`; on any failure
become anonymous; in both cases (`finally`) stop loading.  Storage is
returned unmodified, as the code never writes it here. -/
def checkAuth (storage : LocalStorage) (profileResult : Except ApiError User)
    (_s : AuthState) : AuthState × LocalStorage :=
  if ¬ jsTruthy (getItem storage "token") then
    ({ currentUser := none, loading := false, isAdmin := false }, storage)
  else
    match profileResult with
    | .ok user =>
        ({ currentUser := some user, loading := false,
           isAdmin := strictEqTrue user.is_admin }, storage)
    | .error _ =>
        ({ currentUser := none, loading := false, isAdmin := false }, storage)

/-- A successful `login(email, password)`: persist `access_token` under the
key `'token'`, set the current user, and derive `isAdmin` from
`user.is_admin === true`.  `loading` is untouched. -/
def login (resp : LoginResponse) (s : AuthState) (storage : LocalStorage) :
    AuthState × LocalStorage :=
  ({ s with currentUser := some resp.user,
            isAdmin := strictEqTrue resp.user.is_admin },
   setItem storage "token" resp.access_token)

/-- A successful `register(userData)`: set the current user and derive
`isAdmin`; the code writes nothing to storage. -/
def register (resp : RegisterResponse) (s : AuthState)
    (storage : LocalStorage) : AuthState × LocalStorage :=
  ({ s with currentUser := some resp.user,
            isAdmin := strictEqTrue resp.user.is_admin },
   storage)

/-- `logout()`: try the backend call (its failure is caught and ignored, the
`backendOk` flag therefore has no effect), then remove the stored token,
clear the current user, and reset `isAdmin`. -/
def logout (_backendOk : Bool) (s : AuthState) (storage : LocalStorage) :
    AuthState × LocalStorage :=
  ({ s with currentUser := none, isAdmin := false },
   removeItem storage "token")

/-- `updateUser(updatedUser)`: replace the current user.  No other state
hook is written. -/
def updateUser (u : User) (s : AuthState) : AuthState :=
  { s with currentUser := some u }

/-- One operation of the auth provider, with each backend call's outcome
supplied as data. -/
inductive AuthOp
  | checkAuth (profileResult : Except ApiError User)
  | login (resp : LoginResponse)
  | register (resp : RegisterResponse)
  | logout (backendOk : Bool)
  | updateUser (u : User)
deriving Repr

/-- Apply one operation to the provider state and the client-side storage. -/
def applyOp : AuthOp → AuthState × LocalStorage → AuthState × LocalStorage
  | .checkAuth r, (s, st) => checkAuth st r s
  | .login resp, (s, st) => login resp s st
  | .register resp, (s, st) => register resp s st
  | .logout ok, (s, st) => logout ok s st
  | .updateUser u, (s, st) => (updateUser u s, st)

/-- The value `isAdmin` ought to hold according to the spec's invariant:
`currentUser.is_admin === true` of the currently held user, `false` when no
user is held. -/
def derivedIsAdmin (s : AuthState) : Bool :=
  match s.currentUser with
  | some u => strictEqTrue u.is_admin
  | none => false

/-- The spec's invariant: `isAdmin` agrees with the value derived from the
currently held user object. -/
def isAdminConsistent (s : AuthState) : Prop :=
  s.isAdmin = derivedIsAdmin s

instance : DecidablePred isAdminConsistent := fun s => by
  unfold isAdminConsistent
  infer_instance

/-- The provider renders `{!loading && children}`: whether the children are
rendered for a given state. -/
def childrenRendered (s : AuthState) : Bool :=
  ! s.loading

/-- The `value` object the provider publishes on the context (data fields;
the operation closures are not part of any claim). -/
structure AuthContextValue where
  currentUser : Option User
  isAdmin : Bool
  loading : Bool
deriving DecidableEq, Repr

/-- `useAuth()`: read the context (absent — `undefined` — outside any
provider); throw if it is falsy, return it otherwise.  The provider's value
is an object and hence always truthy. -/
def useAuth (context : Option AuthContextValue) :
    Except String AuthContextValue :=
  match context with
  | none => .error "useAuth must be used within an AuthProvider"
  | some c => .ok c

/-! ### Storage lemmas -/

/-- Reading a key back right after `setItem` yields the stored value. -/
theorem getItem_setItem_self (st : LocalStorage) (k v : String) :
    getItem (setItem st k v) k = some v := by
  simp [setItem, getItem]

/-- Reading a key back right after `removeItem` yields nothing. -/
theorem getItem_removeItem_self (st : LocalStorage) (k : String) :
    getItem (removeItem st k) k = none := by
  induction st with
  | nil => rfl
  | cons p rest ih =>
      unfold removeItem at ih ⊢
      rw [List.filter_cons]
      simp only [decide_not] at ih ⊢
      by_cases h : p.1 = k
      · simp [h, ih]
      · simp [getItem, h, ih]

/-! ### Claim theorems -/

/-- C1, counterexample: a token is present in client-side storage and truthy,
yet the request issued by the `papersAPI.download` helper carries no
`Authorization` header — the download helpers bypass the interceptor. -/
theorem download_omits_bearer_token_cex :
    jsTruthy (getItem [("token", "secrettoken")] "token") = true ∧
    authorizationHeader
      (issueRequest "http://localhost:8001" [("token", "secrettoken")]
        (.papersDownload "42")) = none := by
  constructor <;> rfl

/-- C1, amended: every outbound request issued through the wrapped axios
client carries `Authorization: Bearer <token>` whenever a non-empty token is
stored; the raw-`fetch` download helpers send cookies instead and add no
such header. -/
theorem api_requests_carry_bearer (baseURL : String) (storage : LocalStorage)
    (config : RequestConfig) (t : String)
    (hget : getItem storage "token" = some t) (hne : t ≠ "") :
    authorizationHeader (issueRequest baseURL storage (.viaApi config)) =
      some ("Bearer " ++ t) := by
  simp [issueRequest, requestInterceptor, hget, hne, authorizationHeader,
    setHeader, lookupHeader]

/-- C1 witness: instantiation at a concrete storage and config. -/
theorem api_requests_carry_bearer_witness :
    authorizationHeader
      (issueRequest "http://localhost:8001" [("token", "abc")]
        (.viaApi ⟨"/api/papers", "get", []⟩)) =
      some ("Bearer " ++ "abc") :=
  api_requests_carry_bearer "http://localhost:8001" [("token", "abc")]
    ⟨"/api/papers", "get", []⟩ "abc" (by decide) (by decide)

/-- C2, counterexample: from the initial state, log in as an admin user and
then call `updateUser` with a non-admin user object: `isAdmin` stays `true`
while `currentUser.is_admin === true` is now false — the invariant breaks. -/
theorem updateUser_breaks_isAdmin_cex :
    ¬ isAdminConsistent
        (applyOp (.updateUser ⟨"1", "a@example.com", .vBool false⟩)
          (applyOp (.login ⟨"tok", ⟨"1", "a@example.com", .vBool true⟩⟩)
            (initState, []))).1 := by
  decide

/-- C2, amended: after the initial auth check, login, register and logout,
`isAdmin` equals the value derived from the held user object via
`is_admin === true`; `updateUser`, however, replaces only `currentUser` and
can leave `isAdmin` stale. -/
theorem isAdmin_consistent_after_core_ops (op : AuthOp)
    (sst : AuthState × LocalStorage) (h : ∀ u, op ≠ .updateUser u) :
    isAdminConsistent (applyOp op sst).1 := by
  obtain ⟨s, st⟩ := sst
  cases op with
  | checkAuth r =>
      simp only [applyOp, checkAuth]
      split
      · simp [isAdminConsistent, derivedIsAdmin]
      · cases r with
        | ok u => simp [isAdminConsistent, derivedIsAdmin]
        | error e => simp [isAdminConsistent, derivedIsAdmin]
  | login resp => simp [applyOp, login, isAdminConsistent, derivedIsAdmin]
  | register resp =>
      simp [applyOp, register, isAdminConsistent, derivedIsAdmin]
  | logout ok => simp [applyOp, logout, isAdminConsistent, derivedIsAdmin]
  | updateUser u => exact absurd rfl (h u)

/-- C2 witness: instantiation at a concrete logout step. -/
theorem isAdmin_consistent_after_core_ops_witness :
    isAdminConsistent (applyOp (.logout true) (initState, [])).1 :=
  isAdmin_consistent_after_core_ops (.logout true) (initState, [])
    (fun _ h => nomatch h)

/-- C3: after every successful login, the held current user equals the
response's `user` object and the response's `access_token` is stored under
the key `'token'`. -/
theorem login_sets_user_and_persists_token (resp : LoginResponse)
    (s : AuthState) (storage : LocalStorage) :
    (login resp s storage).1.currentUser = some resp.user ∧
    getItem (login resp s storage).2 "token" = some resp.access_token :=
  ⟨rfl, getItem_setItem_self storage "token" resp.access_token⟩

/-- C4: after every logout — whether or not the backend call succeeded — the
current user is cleared, `isAdmin` is false, and the stored token is gone. -/
theorem logout_clears_state_and_token (backendOk : Bool) (s : AuthState)
    (storage : LocalStorage) :
    (logout backendOk s storage).1.currentUser = none ∧
    (logout backendOk s storage).1.isAdmin = false ∧
    getItem (logout backendOk s storage).2 "token" = none :=
  ⟨rfl, rfl, getItem_removeItem_self storage "token"⟩

/-- C5, counterexample: a successful register from empty storage leaves no
token in client-side storage — `register` never writes storage, contradicting
the claim that a session token is persisted on register. -/
theorem register_persists_no_token_cex :
    getItem
      (register ⟨⟨"u1", "u1@example.com", .vBool false⟩⟩ initState []).2
      "token" = none := rfl

/-- C5, amended: after every successful register call the current user is set
from the response payload, but no session token is written to client-side
storage; a token is persisted only on login. -/
theorem register_sets_user_storage_unchanged (resp : RegisterResponse)
    (s : AuthState) (storage : LocalStorage) :
    (register resp s storage).1.currentUser = some resp.user ∧
    (register resp s storage).2 = storage :=
  ⟨rfl, rfl⟩

/-- C6, counterexample: the startup auth check's profile fetch fails with a
stored token present, yet the token is still in storage afterwards — the
failure path never deletes it. -/
theorem checkAuth_failure_keeps_token_cex :
    getItem (checkAuth [("token", "stale")] (.error .network) initState).2
      "token" = some "stale" := by
  decide

/-- C6, amended: when the startup auth check's profile fetch fails, the
in-memory state is reset to anonymous but the stored session token is not
deleted — `checkAuth` never writes client-side storage at all. -/
theorem checkAuth_never_writes_storage (storage : LocalStorage)
    (r : Except ApiError User) (s : AuthState) :
    (checkAuth storage r s).2 = storage := by
  unfold checkAuth
  split
  · rfl
  · cases r <;> rfl

/-- C7: every failure of the startup profile fetch, whatever its cause, ends
in the same anonymous state: no current user, `isAdmin` false, loading
false. -/
theorem checkAuth_failure_anonymous (storage : LocalStorage) (s : AuthState)
    (e : ApiError) (t : String) (hget : getItem storage "token" = some t)
    (hne : t ≠ "") :
    (checkAuth storage (.error e) s).1 =
      { currentUser := none, loading := false, isAdmin := false } := by
  simp [checkAuth, jsTruthy, hget, hne]

/-- C7 witness: instantiation at a concrete storage and a 500 status. -/
theorem checkAuth_failure_anonymous_witness :
    (checkAuth [("token", "tok")] (.error (.status 500)) initState).1 =
      { currentUser := none, loading := false, isAdmin := false } :=
  checkAuth_failure_anonymous [("token", "tok")] initState (.status 500)
    "tok" (by decide) (by decide)

/-- C8: when no token is stored, the request interceptor returns the request
configuration unchanged — in particular no `Authorization` header is added. -/
theorem no_token_config_unchanged (storage : LocalStorage)
    (config : RequestConfig) (h : getItem storage "token" = none) :
    requestInterceptor storage config = config := by
  simp [requestInterceptor, h]

/-- C8 witness: instantiation at empty storage and a concrete config. -/
theorem no_token_config_unchanged_witness :
    requestInterceptor [] ⟨"/api/stats", "get", []⟩ =
      ⟨"/api/stats", "get", []⟩ :=
  no_token_config_unchanged [] ⟨"/api/stats", "get", []⟩ rfl

/-- C9: the provider renders `{!loading && children}`, so the children are
rendered exactly when the state is no longer loading — never during the
loading state. -/
theorem children_render_iff_resolved (s : AuthState) :
    childrenRendered s = true ↔ s.loading = false := by
  simp [childrenRendered]

/-- C10: `useAuth` throws exactly when the context value is absent (outside
any `AuthProvider`); inside a provider it returns the context value. -/
theorem useAuth_throws_iff_outside :
    useAuth none = .error "useAuth must be used within an AuthProvider" ∧
    ∀ c : AuthContextValue, useAuth (some c) = .ok c :=
  ⟨rfl, fun _ => rfl⟩

end Eduu
